import Mathlib

/-!
Shallow embedding of the GlowBot seeding-reward core:
`src/glowbot/tasks.py` (the seeding monitor / accrual tick) and
`src/seeding_reward_bot/commands.py` (register / seeder / vip / claim).

Modelling conventions:
* Durations (the `timedelta` fields `seeding_time_balance`, `total_seeding_time`)
  are integers counting whole seconds.  The Python `timedelta.seconds` attribute is
  the seconds component after normalisation to `(days, seconds, microseconds)`
  with `0 <= seconds < 86400`; for a whole-second duration `d` this is
  `d % 86400` under floored modulus, which `Int.emod` (the Lean `%` on `Int`)
  matches for the positive modulus `86400`.
* Instants (timestamps, VIP expirations, times-of-day) are integers counting
  seconds; only their ordering and translation by durations is ever used.
* The configured `seeder_vip_reward_hours` conversion rate is modelled as an
  integer number of VIP hours per claimed seeding hour; the code multiplies
  the configured number by the claimed hours and feeds the product to
  `timedelta(hours=...)`, which for an integer is exactly 3600·value seconds.
* The external collaborators (RCON client, database) are modelled by passing
  their answers in as arguments: the per-endpoint VIP entries returned by
  `client.get_vip`, the per-endpoint booleans returned by `client.grant_vip`,
  and the list of records a database filter returns.
-/

namespace GlowBot

/-- The timestamp of `datetime(year=2200, month=1, day=1, tzinfo=timezone.utc)`:
the far-future sentinel used to detect non-expiring VIP
(commands.py lines 127 and 194). -/
def farFutureSentinel : ℤ := 7258118400

/-- One player record (`HLL_Player` in `db.py`, as constructed and mutated by
tasks.py and commands.py).  `seeding_time_balance` and `total_seeding_time`
are whole seconds; `last_seed_check` is an epoch timestamp. -/
structure HLL_Player where
  steam_id_64 : String
  player_name : String
  discord_id : Option ℤ
  seeding_time_balance : ℤ
  total_seeding_time : ℤ
  last_seed_check : ℤ
deriving DecidableEq, Repr

/-- Python `timedelta.seconds`: the within-day seconds component of a
whole-second duration. -/
def tdSeconds (total : ℤ) : ℤ := total % 86400

/-- The quantity `player.seeding_time_balance.seconds // 3600` (commands.py line 163):
the "banked hours" the claim command compares against. -/
def bankedHours (balance : ℤ) : ℤ := tdSeconds balance / 3600

/-- The hour counter of tasks.py lines 119-123:
`m, s = divmod(td.seconds, 60); hourly, _ = divmod(m, 60)`. -/
def hourlyOf (balance : ℤ) : ℤ := (tdSeconds balance / 60) / 60

/-- The time-window predicate `is_now(start, end, now)` defined inside
`update_seeders` (tasks.py lines 47-51).  Python `time` values are totally
ordered; we model a time-of-day by its second count.  `fin` stands for the
parameter named `end` in the source (a Lean keyword). -/
def is_now (start fin now : ℤ) : Bool :=
  if start ≤ fin then
    decide (start ≤ now ∧ now ≤ fin)
  else
    decide (start ≤ now ∨ now < fin)

/-- The test `len(player_list) < seeding_threshold` (tasks.py line 80): does the server qualify as seeding. -/
def isSeedingServer (playerCount threshold : ℤ) : Bool :=
  playerCount < threshold

/-- The answer of one endpoint in the map returned by `client.get_vip(steam_id)`:
either `None` (no VIP entry at all) or a record whose `vip_expiration` field is
`None` or an expiration instant (we model the parsed value of the RCON time
string). -/
inductive VipEntry where
  | noRecord : VipEntry
  | record : Option ℤ → VipEntry
deriving DecidableEq, Repr

/-- The consistency test shared by `vip` (commands.py line 111) and `claim`
(line 173): `all(val != vip_entries[0] for val in vip_entries)`.  The branch
is taken (inconsistency reported) exactly when this returns `true`. -/
def vipMismatchDetected : List VipEntry → Bool
  | [] => false
  | e :: rest => (e :: rest).all (fun v => decide (v ≠ e))

/-- The value of `vip_entries.pop()` (commands.py lines 117 and 179): `list.pop()`
removes and returns the LAST element. -/
def poppedEntry (entries : List VipEntry) : VipEntry :=
  (entries.getLast?).getD VipEntry.noRecord

/-- The baseline the claim command extends (commands.py lines 182-191): `now`
when there is no VIP entry or no expiration, or when the current expiration is
strictly in the past; otherwise the current expiration. -/
def expirationBase (now : ℤ) (vip : VipEntry) : ℤ :=
  match vip with
  | .noRecord => now
  | .record none => now
  | .record (some cur) => if cur < now then now else cur

/-- The `expiration` computed by `claim` (commands.py lines 182-191):
the baseline plus `timedelta(hours=grant_value)`. -/
def computeExpiration (now : ℤ) (vip : VipEntry) (grantValue : ℤ) : ℤ :=
  expirationBase now vip + 3600 * grantValue

/-- Which terminal reply the `claim` command produced. -/
inductive ClaimTag where
  | usage               -- `hours is None`: help text only
  | notRegistered       -- no player record for the discord id of the caller
  | insufficientBalance -- `hours > balance.seconds // 3600`
  | inconsistentVip     -- the cross-server mismatch branch
  | grantFailed         -- some endpoint reported a False grant_vip result
  | nonExpiring         -- computed expiration at/after the sentinel
  | success             -- granted, balance decremented, record saved
deriving DecidableEq, Repr

/-- The observable effect of one `claim` invocation: the reply tag, whether
`client.grant_vip` was invoked, the record passed to `player.save()` if the
save line was reached, and the computed expiration if computed. -/
structure ClaimResult where
  tag : ClaimTag
  grantCalled : Bool
  savedRecord : Option HLL_Player
  expiration : Option ℤ
deriving DecidableEq, Repr

/-- The `/hll claim` command (commands.py lines 138-216).
`rewardHours` is the configured `seeder_vip_reward_hours`;
`player?` is the result of `get_player_by_discord_id`; `vipEntries` are the
per-endpoint values of `client.get_vip`; `grantResults` the per-endpoint
values of `client.grant_vip` (consulted only when the grant is issued). -/
def claimCommand (rewardHours : ℤ) (now : ℤ) (player? : Option HLL_Player)
    (hours? : Option ℤ) (vipEntries : List VipEntry)
    (grantResults : List Bool) : ClaimResult :=
  match hours? with
  | none => ⟨.usage, false, none, none⟩
  | some hours =>
    match player? with
    | none => ⟨.notRegistered, false, none, none⟩
    | some player =>
      if hours > bankedHours player.seeding_time_balance then
        ⟨.insufficientBalance, false, none, none⟩
      else if vipMismatchDetected vipEntries then
        ⟨.inconsistentVip, false, none, none⟩
      else
        let vip := poppedEntry vipEntries
        let grantValue := rewardHours * hours
        let expiration := computeExpiration now vip grantValue
        if farFutureSentinel ≤ expiration then
          -- "non-expiring vip... converting seeding hours is pointless...":
          -- no grant call, no spend, but the (unchanged) record is saved.
          ⟨.nonExpiring, false, some player, some expiration⟩
        else if grantResults.any (fun r => !r) then
          -- a False in the grant_vip result dict: reply and return, no save.
          ⟨.grantFailed, true, none, some expiration⟩
        else
          let player' :=
            { player with
                seeding_time_balance :=
                  player.seeding_time_balance - 3600 * hours }
          ⟨.success, true, some player', some expiration⟩

/-- Which terminal reply the `vip` command produced (commands.py lines
94-135). -/
inductive VipQueryTag where
  | notRegistered
  | inconsistentVip
  | noRecord
  | expired
  | nonExpiring
  | active
deriving DecidableEq, Repr

/-- The `/hll vip` status query (commands.py lines 94-135). -/
def vipCommand (now : ℤ) (player? : Option HLL_Player)
    (vipEntries : List VipEntry) : VipQueryTag :=
  match player? with
  | none => .notRegistered
  | some _ =>
    if vipMismatchDetected vipEntries then .inconsistentVip
    else
      match poppedEntry vipEntries with
      | .noRecord => .noRecord
      | .record none => .noRecord
      | .record (some expiration) =>
        if expiration < now then .expired
        else if farFutureSentinel ≤ expiration then .nonExpiring
        else .active

/-- Which terminal reply `/hll register` produced (commands.py lines 26-74),
together with any record passed to `player.save()`. -/
inductive RegisterOutcome where
  | multipleFound                 -- `len(query_result) > 1`: error, no save
  | created (rec : HLL_Player)    -- no entry: a fresh record is saved
  | linked (rec : HLL_Player)     -- existing entry, `discord_id is None`: linked and saved
  | alreadyYours                  -- `discord_id == ctx.author.id`: reply only
  | ownedByOther                  -- different non-null discord id: reply only
deriving DecidableEq, Repr

/-- The `/hll register steam64` command (commands.py lines 26-74).
`query` is the result of `HLL_Player.filter(steam_id_64=steam64)`;
`authorId`/`authorName` are `ctx.author.id` / `ctx.author.name`. -/
def registerCommand (now : ℤ) (authorId : ℤ) (authorName steam64 : String)
    (query : List HLL_Player) : RegisterOutcome :=
  match query with
  | [] =>
    .created
      { steam_id_64 := steam64
        player_name := authorName
        discord_id := some authorId
        seeding_time_balance := 0
        total_seeding_time := 0
        last_seed_check := now }
  | [player] =>
    match player.discord_id with
    | none => .linked { player with discord_id := some authorId }
    | some d => if d = authorId then .alreadyYours else .ownedByOther
  | _ => .multipleFound

/-- The constant `SEEDING_INCREMENT_TIMER` (tasks.py line 10), in minutes. -/
def SEEDING_INCREMENT_TIMER : ℤ := 3

/-- Effect of processing one present player on a qualifying server during an
`update_seeders` tick (tasks.py lines 84-133). -/
inductive AccrueAction where
  | created (rec : HLL_Player)    -- no record found: a fresh one is saved
  | duplicateIdentity             -- more than one match: error logged, no save
  | updated (rec : HLL_Player) (crossedHour : Bool)
      -- existing record updated and saved; `crossedHour` is the
      -- `new_hourly > old_hourly` reward-message trigger
deriving DecidableEq, Repr

/-- Per-player accrual inside `update_seeders` (tasks.py lines 84-133).
`query` is the result of `HLL_Player.filter(steam_id_64__contains=...)`.
A brand-new seeder record is created with ZERO balance and total
(tasks.py lines 95-96); an existing record gains
`timedelta(minutes=SEEDING_INCREMENT_TIMER)` on both balance and total.
The hour-boundary trigger compares `divmod`-derived hour counts of the
`timedelta.seconds` components (lines 119-125). -/
def accruePlayer (now : ℤ) (steamId name : String)
    (query : List HLL_Player) : AccrueAction :=
  match query with
  | [] =>
    .created
      { steam_id_64 := steamId
        player_name := name
        discord_id := none
        seeding_time_balance := 0
        total_seeding_time := 0
        last_seed_check := now }
  | [seeder] =>
    let additionalTime := SEEDING_INCREMENT_TIMER * 60
    let oldSeedBalance := seeder.seeding_time_balance
    let seeder' :=
      { seeder with
          seeding_time_balance := oldSeedBalance + additionalTime
          total_seeding_time := seeder.total_seeding_time + additionalTime
          last_seed_check := now }
    .updated seeder'
      (hourlyOf seeder'.seeding_time_balance > hourlyOf oldSeedBalance)
  | _ => .duplicateIdentity

/-- How one configured seeding-window time string behaves when read and fed to
`time.fromisoformat` (tasks.py lines 38-42): absent (`None`, raising
`TypeError`), present but unparsable (raising `ValueError`), or parsed. -/
inductive ConfigTime where
  | missing : ConfigTime
  | invalid : ConfigTime
  | valid : ℤ → ConfigTime
deriving DecidableEq, Repr

/-- What the time-window preamble of `update_seeders` decides
(tasks.py lines 36-71). -/
inductive GateDecision where
  | proceed             -- inside the window: fall through to polling
  | skipOutsideWindow   -- `is_now` false: set idle presence and return
  | proceedWithError    -- ValueError: `logger.error` then fall through
  | proceedMissing      -- TypeError: fall through silently
deriving DecidableEq, Repr

/-- The `try`/`except` gate at the top of `update_seeders` (tasks.py lines
36-71).  The start string is parsed first (line 41), then the end string
(line 42); a `ValueError` is logged and the tick continues, a `TypeError`
(unset value) continues silently. -/
def gatePreamble (startCfg endCfg : ConfigTime) (now : ℤ) : GateDecision :=
  match startCfg with
  | .invalid => .proceedWithError
  | .missing => .proceedMissing
  | .valid s =>
    match endCfg with
    | .invalid => .proceedWithError
    | .missing => .proceedMissing
    | .valid e =>
      if is_now s e now then .proceed else .skipOutsideWindow

/-- Does the tick go on to poll the servers (reach tasks.py line 73)? -/
def tickProceeds : GateDecision → Bool
  | .proceed => true
  | .skipOutsideWindow => false
  | .proceedWithError => true
  | .proceedMissing => true

/-- Was a configuration error surfaced to the operator
(`logger.error` at tasks.py line 67)? -/
def configErrorSurfaced : GateDecision → Bool
  | .proceedWithError => true
  | _ => false

/-- Demo record with one banked hour of seeding balance. -/
def pOneHour : HLL_Player :=
  { steam_id_64 := "76561198000000001"
    player_name := "alice"
    discord_id := some 11
    seeding_time_balance := 3600
    total_seeding_time := 3600
    last_seed_check := 0 }

/-- Demo record with three banked hours of seeding balance (the end-to-end
scenario of the spec). -/
def pThreeHours : HLL_Player :=
  { steam_id_64 := "76561198000000002"
    player_name := "bella"
    discord_id := some 12
    seeding_time_balance := 10800
    total_seeding_time := 10800
    last_seed_check := 0 }

/-- Demo record with exactly 24 hours of seeding balance. -/
def pDayBalance : HLL_Player :=
  { steam_id_64 := "76561198000000003"
    player_name := "carol"
    discord_id := some 13
    seeding_time_balance := 86400
    total_seeding_time := 86400
    last_seed_check := 0 }

/-- Demo record whose balance is 23 h 57 min, three minutes short of a full
day. -/
def pNearDay : HLL_Player :=
  { steam_id_64 := "76561198000000004"
    player_name := "dana"
    discord_id := none
    seeding_time_balance := 86220
    total_seeding_time := 86220
    last_seed_check := 0 }

/-- Demo record with no linked discord id. -/
def pUnlinked : HLL_Player :=
  { steam_id_64 := "76561198000000005"
    player_name := "evan"
    discord_id := none
    seeding_time_balance := 600
    total_seeding_time := 600
    last_seed_check := 0 }

end GlowBot

namespace GlowBot

/-- C7: the time-window gate is active exactly when `start <= now <= end`
when the window does not wrap (`start <= end`), and exactly when
`now >= start` or `now < end` when it wraps midnight (`start > end`);
in particular `is_now t t t` is true for every time `t`. -/
theorem is_now_spec (start fin now : ℤ) :
    (is_now start fin now = true ↔
      ((start ≤ fin ∧ start ≤ now ∧ now ≤ fin) ∨
       (fin < start ∧ (start ≤ now ∨ now < fin)))) ∧
    is_now now now now = true := by
  constructor
  · unfold is_now
    split <;> rename_i h <;> simp <;> omega
  · simp [is_now]

/-- C7 witness: the theorem applied at the concrete window 5..10 and
instant 7. -/
theorem is_now_spec_witness :
    is_now 5 10 7 = true ∧ (5 : ℤ) ≤ 10 ∧ (5 : ℤ) ≤ 7 ∧ (7 : ℤ) ≤ 10 :=
  ⟨(is_now_spec 5 10 7).1.mpr (Or.inl (by decide)), by decide, by decide,
    by decide⟩

/-- C1: the cross-server consistency test
`all(val != vip_entries[0] for val in vip_entries)` is identically false on a
nonempty endpoint list (the first entry always equals itself), so the
inconsistency fault is never reported: on two endpoints whose values differ,
the `vip` query answers from the last endpoint value and the `claim` command
proceeds to grant and spend. -/
theorem vip_mismatch_never_reported :
    (∀ (e : VipEntry) (rest : List VipEntry),
        vipMismatchDetected (e :: rest) = false) ∧
    VipEntry.noRecord ≠ VipEntry.record (some 1000) ∧
    vipCommand 0 (some pOneHour) [VipEntry.noRecord, VipEntry.record (some 1000)] =
      VipQueryTag.active ∧
    claimCommand 1 0 (some pOneHour) (some 1)
        [VipEntry.noRecord, VipEntry.record (some 1000)] [true, true] =
      ⟨ClaimTag.success, true,
        some ⟨"76561198000000001", "alice", some 11, 0, 3600, 0⟩,
        some 4600⟩ := by
  refine ⟨fun e rest => ?_, by decide, by decide, by decide⟩
  simp [vipMismatchDetected]

/-- C2: when a claim passes the balance and consistency checks and the
computed expiration is below the sentinel (so the grants are issued), the
balance is spent only when no endpoint reports failure; any failing grant
result ends the command with the grant-failure reply, nothing saved and no
spend. -/
theorem claim_grant_failure_no_spend
    (rewardHours now : ℤ) (player : HLL_Player) (hours : ℤ)
    (vipEntries : List VipEntry) (grantResults : List Bool)
    (hbal : ¬ hours > bankedHours player.seeding_time_balance)
    (hcons : vipMismatchDetected vipEntries = false)
    (hsent : computeExpiration now (poppedEntry vipEntries)
      (rewardHours * hours) < farFutureSentinel) :
    ((claimCommand rewardHours now (some player) (some hours) vipEntries
        grantResults).tag = ClaimTag.success →
      grantResults.any (fun r => !r) = false) ∧
    (grantResults.any (fun r => !r) = true →
      claimCommand rewardHours now (some player) (some hours) vipEntries
          grantResults =
        ⟨ClaimTag.grantFailed, true, none,
          some (computeExpiration now (poppedEntry vipEntries)
            (rewardHours * hours))⟩) := by
  have hmis : ¬ (vipMismatchDetected vipEntries = true) := by simp [hcons]
  have hns := not_le.mpr hsent
  cases hany : grantResults.any (fun r => !r) with
  | false =>
      exact ⟨fun _ => rfl, fun hcontra => by simp at hcontra⟩
  | true =>
      have hres : claimCommand rewardHours now (some player) (some hours)
          vipEntries grantResults =
          ⟨ClaimTag.grantFailed, true, none,
            some (computeExpiration now (poppedEntry vipEntries)
              (rewardHours * hours))⟩ := by
        simp only [claimCommand]
        rw [if_neg hbal, if_neg hmis, if_neg hns, if_pos hany]
      refine ⟨fun htag => ?_, fun _ => hres⟩
      rw [hres] at htag
      exact absurd htag (by simp)

/-- C2 witness: the spec end-to-end scenario with a failing second endpoint:
three banked hours, `claim(2)` at rate 1, both endpoints report no VIP, the
second grant call fails; nothing is saved and no spend occurs. -/
theorem claim_grant_failure_no_spend_witness :
    claimCommand 1 0 (some pThreeHours) (some 2)
        [VipEntry.noRecord, VipEntry.noRecord] [true, false] =
      ⟨ClaimTag.grantFailed, true, none, some 7200⟩ :=
  ((claim_grant_failure_no_spend 1 0 pThreeHours 2
      [VipEntry.noRecord, VipEntry.noRecord] [true, false]
      (by decide) (by decide) (by decide)).2 (by decide)).trans (by decide)

/-- C3 counterexample: with a current expiration already at the sentinel, the
computed new expiration is at/after the sentinel and the claim command issues
NO grant (`grantCalled = false`), contradicting the claim that the grant is
still issued; the record is saved with its balance unchanged. -/
theorem claim_sentinel_counterexample :
    claimCommand 1 0 (some pThreeHours) (some 2)
        [VipEntry.record (some farFutureSentinel),
         VipEntry.record (some farFutureSentinel)] [true, true] =
      ⟨ClaimTag.nonExpiring, false, some pThreeHours,
        some (farFutureSentinel + 7200)⟩ ∧
    farFutureSentinel ≤ farFutureSentinel + 7200 := by decide

/-- C3 amended: when the computed new expiration is at or beyond the
far-future sentinel, the claim reports non-expiring VIP for display, issues
no grant, and spends nothing (the unchanged record is saved). -/
theorem claim_sentinel_no_grant
    (rewardHours now : ℤ) (player : HLL_Player) (hours : ℤ)
    (vipEntries : List VipEntry) (grantResults : List Bool)
    (hbal : ¬ hours > bankedHours player.seeding_time_balance)
    (hcons : vipMismatchDetected vipEntries = false)
    (hsent : farFutureSentinel ≤ computeExpiration now (poppedEntry vipEntries)
      (rewardHours * hours)) :
    claimCommand rewardHours now (some player) (some hours) vipEntries
        grantResults =
      ⟨ClaimTag.nonExpiring, false, some player,
        some (computeExpiration now (poppedEntry vipEntries)
          (rewardHours * hours))⟩ := by
  have hmis : ¬ (vipMismatchDetected vipEntries = true) := by simp [hcons]
  simp only [claimCommand]
  rw [if_neg hbal, if_neg hmis, if_pos hsent]

/-- C3 witness: the amended theorem applied at a concrete sentinel-reaching
input. -/
theorem claim_sentinel_no_grant_witness :
    claimCommand 1 0 (some pThreeHours) (some 2)
        [VipEntry.record (some 7258118400), VipEntry.record (some 7258118400)]
        [true, true] =
      ⟨ClaimTag.nonExpiring, false, some pThreeHours, some 7258125600⟩ :=
  (claim_sentinel_no_grant 1 0 pThreeHours 2
      [VipEntry.record (some 7258118400), VipEntry.record (some 7258118400)]
      [true, true] (by decide) (by decide) (by decide)).trans (by decide)

/-- C4 counterexample: a first-sighted seeder is recorded with ZERO balance
and total (not the tick increment), and after two consecutive ticks the
balance is 180 seconds (3 minutes), not 360 seconds (6 minutes). -/
theorem accrue_new_record_counterexample :
    accruePlayer 0 "76561198000000010" "newbie" [] =
      AccrueAction.created
        ⟨"76561198000000010", "newbie", none, 0, 0, 0⟩ ∧
    accruePlayer 180 "76561198000000010" "newbie"
        [⟨"76561198000000010", "newbie", none, 0, 0, 0⟩] =
      AccrueAction.updated
        ⟨"76561198000000010", "newbie", none, 180, 180, 180⟩ false ∧
    (0 : ℤ) ≠ SEEDING_INCREMENT_TIMER * 60 ∧ (180 : ℤ) ≠ 360 := by decide

/-- C4 amended: on a qualifying server (for example 10 players against
threshold 40), a first-sighted seeder gets a record with zero balance and
total and `lastSeedCheck = now`; the next tick adds one 3-minute increment,
so two consecutive ticks leave the balance at 3 minutes in total. -/
theorem accrue_new_record_zero (now now2 : ℤ) (steamId name : String) :
    isSeedingServer 10 40 = true ∧
    accruePlayer now steamId name [] =
      AccrueAction.created
        { steam_id_64 := steamId, player_name := name, discord_id := none,
          seeding_time_balance := 0, total_seeding_time := 0,
          last_seed_check := now } ∧
    accruePlayer now2 steamId name
        [{ steam_id_64 := steamId, player_name := name, discord_id := none,
           seeding_time_balance := 0, total_seeding_time := 0,
           last_seed_check := now }] =
      AccrueAction.updated
        { steam_id_64 := steamId, player_name := name, discord_id := none,
          seeding_time_balance := 180, total_seeding_time := 180,
          last_seed_check := now2 } false := by
  refine ⟨by decide, rfl, ?_⟩
  simp [accruePlayer, hourlyOf, tdSeconds, SEEDING_INCREMENT_TIMER]

/-- C4 witness: the amended theorem applied at concrete inputs: the freshly
created record carries a zero balance. -/
theorem accrue_new_record_zero_witness :
    accruePlayer 0 "76561198000000010" "newbie" [] =
      AccrueAction.created
        ⟨"76561198000000010", "newbie", none, 0, 0, 0⟩ :=
  (accrue_new_record_zero 0 180 "76561198000000010" "newbie").2.1

/-- C5: with exactly 24 whole hours banked (86400 s), a claim of a single
hour is rejected as insufficient although 1 <= 24, because the code derives
banked hours from `timedelta.seconds`, the within-day component, which is 0
here; nothing is changed or saved on the failure. -/
theorem claim_day_balance_insufficient :
    claimCommand 1 0 (some pDayBalance) (some 1)
        [VipEntry.noRecord, VipEntry.noRecord] [true, true] =
      ⟨ClaimTag.insufficientBalance, false, none, none⟩ ∧
    pDayBalance.seeding_time_balance = 86400 ∧
    (1 : ℤ) ≤ pDayBalance.seeding_time_balance / 3600 ∧
    bankedHours pDayBalance.seeding_time_balance = 0 := by decide

/-- C6: accruing 3 minutes onto a balance of 23 h 57 min reaches 24 h, so
the whole-hour count of the balance rises from 23 to 24, yet the
reward trigger `new_hourly > old_hourly` is false because both hour counts
are taken of `timedelta.seconds`, the within-day component, which wraps to
0 at 24 h. -/
theorem accrue_day_boundary_not_fired :
    accruePlayer 999 "76561198000000004" "dana" [pNearDay] =
      AccrueAction.updated
        ⟨"76561198000000004", "dana", none, 86400, 86400, 999⟩ false ∧
    pNearDay.seeding_time_balance / 3600 = 23 ∧
    (86400 : ℤ) / 3600 = 24 ∧
    hourlyOf 86400 = 0 := by decide

/-- C8 counterexample: with an unparsable start time configured, the error is
surfaced but the tick is NOT skipped: it proceeds to poll the servers,
contradicting the claim that an invalid value skips the tick. -/
theorem gate_invalid_counterexample :
    gatePreamble ConfigTime.invalid (ConfigTime.valid 0) 0 =
      GateDecision.proceedWithError ∧
    tickProceeds GateDecision.proceedWithError = true ∧
    configErrorSurfaced GateDecision.proceedWithError = true := by decide

/-- C8 amended: a missing window value lets the tick proceed permissively and
silently; a present but unparsable value surfaces a configuration error to
the operator and the tick still proceeds as always-active; the only decision
that skips the tick is a well-parsed window that excludes the current
instant. -/
theorem gate_missing_permissive_invalid_surfaced (now s : ℤ) :
    (∀ c, gatePreamble ConfigTime.missing c now = GateDecision.proceedMissing) ∧
    gatePreamble (ConfigTime.valid s) ConfigTime.missing now =
      GateDecision.proceedMissing ∧
    (∀ c, gatePreamble ConfigTime.invalid c now =
      GateDecision.proceedWithError) ∧
    gatePreamble (ConfigTime.valid s) ConfigTime.invalid now =
      GateDecision.proceedWithError ∧
    tickProceeds GateDecision.proceedMissing = true ∧
    configErrorSurfaced GateDecision.proceedMissing = false ∧
    tickProceeds GateDecision.proceedWithError = true ∧
    configErrorSurfaced GateDecision.proceedWithError = true ∧
    ∀ d, tickProceeds d = false ↔ d = GateDecision.skipOutsideWindow := by
  refine ⟨fun c => rfl, rfl, fun c => rfl, rfl, rfl, rfl, rfl, rfl,
    fun d => ?_⟩
  cases d <;> simp [tickProceeds]

/-- C8 witness: the amended theorem applied at a concrete instant, giving
the missing-start outcome. -/
theorem gate_missing_permissive_invalid_surfaced_witness :
    gatePreamble ConfigTime.missing (ConfigTime.valid 3600) 0 =
      GateDecision.proceedMissing :=
  (gate_missing_permissive_invalid_surfaced 0 0).1 (ConfigTime.valid 3600)

/-- C9: on a successful claim of `hours` at conversion rate `rewardHours`,
the saved record has its balance decreased by exactly `3600 * hours` seconds
(the claimed seeding hours, with the rate not entering the spend), while the
granted expiration extends the baseline by `3600 * (rewardHours * hours)`
seconds. -/
theorem claim_success_spend_and_extension
    (rewardHours now : ℤ) (player : HLL_Player) (hours : ℤ)
    (vipEntries : List VipEntry) (grantResults : List Bool)
    (hbal : ¬ hours > bankedHours player.seeding_time_balance)
    (hcons : vipMismatchDetected vipEntries = false)
    (hsent : computeExpiration now (poppedEntry vipEntries)
      (rewardHours * hours) < farFutureSentinel)
    (hok : grantResults.any (fun r => !r) = false) :
    claimCommand rewardHours now (some player) (some hours) vipEntries
        grantResults =
      ⟨ClaimTag.success, true,
        some { player with
                 seeding_time_balance :=
                   player.seeding_time_balance - 3600 * hours },
        some (expirationBase now (poppedEntry vipEntries) +
          3600 * (rewardHours * hours))⟩ := by
  have hmis : ¬ (vipMismatchDetected vipEntries = true) := by simp [hcons]
  have hns := not_le.mpr hsent
  have hnoany : ¬ (grantResults.any (fun r => !r) = true) := by simp [hok]
  simp only [claimCommand]
  rw [if_neg hbal, if_neg hmis, if_neg hns, if_neg hnoany]
  rfl

/-- C9 witness: the spec end-to-end scenario: three banked hours, `claim(2)`
at rate 1, both endpoints with no VIP, both grants succeed; the saved balance
is 1 h (3600 s) and the expiration is now + 2 h. -/
theorem claim_success_spend_and_extension_witness :
    claimCommand 1 0 (some pThreeHours) (some 2)
        [VipEntry.noRecord, VipEntry.noRecord] [true, true] =
      ⟨ClaimTag.success, true,
        some ⟨"76561198000000002", "bella", some 12, 3600, 10800, 0⟩,
        some 7200⟩ :=
  (claim_success_spend_and_extension 1 0 pThreeHours 2
      [VipEntry.noRecord, VipEntry.noRecord] [true, true]
      (by decide) (by decide) (by decide) (by decide)).trans (by decide)

/-- C10: when `register(steam64)` finds exactly one record, the only record
ever saved is in the unlinked branch, where solely `discord_id` changes,
from `none` to the id of the calling user; every other field is kept, and
when a discord id is already present the command only replies and mutates
nothing. -/
theorem register_one_match_frame (now authorId : ℤ)
    (authorName steam64 : String) (player : HLL_Player) :
    (registerCommand now authorId authorName steam64 [player] =
      match player.discord_id with
      | none => RegisterOutcome.linked { player with discord_id := some authorId }
      | some d => if d = authorId then RegisterOutcome.alreadyYours
                  else RegisterOutcome.ownedByOther) ∧
    ∀ rec, registerCommand now authorId authorName steam64 [player] =
        RegisterOutcome.linked rec →
      rec.steam_id_64 = player.steam_id_64 ∧
      rec.player_name = player.player_name ∧
      rec.seeding_time_balance = player.seeding_time_balance ∧
      rec.total_seeding_time = player.total_seeding_time ∧
      rec.last_seed_check = player.last_seed_check ∧
      player.discord_id = none ∧ rec.discord_id = some authorId := by
  constructor
  · rfl
  · intro rec hrec
    match hdid : player.discord_id with
    | none =>
        simp only [registerCommand, hdid] at hrec
        cases hrec
        exact ⟨rfl, rfl, rfl, rfl, rfl, hdid.symm ▸ rfl, rfl⟩
    | some d =>
        simp only [registerCommand, hdid] at hrec
        split at hrec <;> exact absurd hrec (by simp)

/-- C10 witness: the theorem applied to a record with no linked discord id:
the saved record keeps every field except `discord_id`, which becomes the
id of the caller. -/
theorem register_one_match_frame_witness :
    ({ pUnlinked with discord_id := some 42 } : HLL_Player).steam_id_64 =
        pUnlinked.steam_id_64 ∧
      ({ pUnlinked with discord_id := some 42 } : HLL_Player).player_name =
        pUnlinked.player_name ∧
      ({ pUnlinked with discord_id := some 42 } :
          HLL_Player).seeding_time_balance =
        pUnlinked.seeding_time_balance ∧
      ({ pUnlinked with discord_id := some 42 } :
          HLL_Player).total_seeding_time =
        pUnlinked.total_seeding_time ∧
      ({ pUnlinked with discord_id := some 42 } : HLL_Player).last_seed_check =
        pUnlinked.last_seed_check ∧
      pUnlinked.discord_id = none ∧
      ({ pUnlinked with discord_id := some 42 } : HLL_Player).discord_id =
        some 42 :=
  (register_one_match_frame 0 42 "bob" "76561198000000005" pUnlinked).2
    { pUnlinked with discord_id := some 42 } (by decide)

end GlowBot
